import Mathlib

/-!
Shallow embedding of the styling engine of the QR-Code repository
(src/Style.ts and src/Drawer.ts), with theorems settling the stated
properties of the size-value resolver, the gradient model, the style
merge operation, the icon sizing and the linear-gradient geometry.
JS numbers are embedded as rationals (reals for the trigonometric
part); the NaN outcome of parseInt is embedded as Option.none.
-/

/-- JS whitespace characters skipped by parseInt. -/
def isJsWhitespace (ch : Char) : Bool :=
  ch = ' ' ∨ ch = '\t' ∨ ch = '\n' ∨ ch = '\r' ∨ ch = '\x0b' ∨ ch = '\x0c'

/-- Value of a character as a digit in the given radix, as in JS parseInt. -/
def digitValue (radix : ℕ) (ch : Char) : Option ℕ :=
  let v : ℕ :=
    if '0' ≤ ch ∧ ch ≤ '9' then ch.toNat - '0'.toNat
    else if 'a' ≤ ch ∧ ch ≤ 'z' then ch.toNat - 'a'.toNat + 10
    else if 'A' ≤ ch ∧ ch ≤ 'Z' then ch.toNat - 'A'.toNat + 10
    else radix
  if v < radix then some v else none

/-- Model of the JS global parseInt with no radix argument, over a char list:
skip leading whitespace, read an optional sign, detect a 0x or 0X hex marker,
then take the longest run of digits; none models the NaN result. -/
def jsParseIntChars (cs : List Char) : Option ℤ :=
  let cs := cs.dropWhile isJsWhitespace
  let signAndRest : ℤ × List Char :=
    match cs with
    | '-' :: rest => (-1, rest)
    | '+' :: rest => (1, rest)
    | _ => (1, cs)
  let radixAndRest : ℕ × List Char :=
    match signAndRest.2 with
    | '0' :: 'x' :: rest => (16, rest)
    | '0' :: 'X' :: rest => (16, rest)
    | _ => (10, signAndRest.2)
  let ds := ((radixAndRest.2.takeWhile (fun ch => (digitValue radixAndRest.1 ch).isSome)).map
    (fun ch => (digitValue radixAndRest.1 ch).getD 0))
  if ds.isEmpty then none
  else some (signAndRest.1 * ((ds.foldl (fun acc d => acc * radixAndRest.1 + d) 0 : ℕ) : ℤ))

/-- JS parseInt on a string value. -/
def jsParseInt (s : String) : Option ℤ := jsParseIntChars s.data

/-- JS String.prototype.slice with a negative end index: drop the last k chars. -/
def jsSlice (s : String) (k : ℕ) : String := ⟨s.data.take (s.data.length - k)⟩

/-- JS String.prototype.endsWith. -/
def jsEndsWith (s tail : String) : Bool := tail.data.isSuffixOf s.data

/-- Style.SizeValue: number | percentage string | pixel string (any string fits the model). -/
inductive SizeValue where
  | num (value : ℚ)
  | str (value : String)
deriving DecidableEq

/-- The string branch of Style.parseSizeValue (src/Style.ts lines 91-95):
percentage, pixel or plain parse; none models the NaN outcome of parseInt. -/
def resolveSizeString (s : String) (reference : ℚ) : Option ℚ :=
  if jsEndsWith s "%" then (jsParseInt (jsSlice s 1)).map (fun n => ((n : ℚ) / 100) * reference)
  else if jsEndsWith s "px" then (jsParseInt (jsSlice s 2)).map (fun n => (n : ℚ))
  else (jsParseInt s).map (fun n => (n : ℚ))

/-- The resolved value before the NaN check and the clamp: a number is kept as is,
a string goes through the string branch. -/
def resolveSize (value : SizeValue) (reference : ℚ) : Option ℚ :=
  match value with
  | .num v => some v
  | .str s => resolveSizeString s reference

/-- Style.parseSizeValue (src/Style.ts lines 90-98). The maximum argument is
optional; an unresolved (NaN) value returns 0; the clamp line is
maximum && value > maximum ? maximum : value, where a maximum of 0 is falsy,
so the clamp only fires for a nonzero maximum. -/
def parseSizeValue (value : SizeValue) (reference : ℚ) (maximum : Option ℚ) : ℚ :=
  match resolveSize value reference with
  | none => 0
  | some v =>
    match maximum with
    | none => v
    | some m => if m ≠ 0 ∧ m < v then m else v

/-- Style.ColorValue | Style.gradientOptions: a bare color string, or an
incomplete linear or radial gradient description (optional fields are Option,
matching the TS optional properties). -/
inductive ColorInput where
  | color (value : String)
  | linear (colors : List String) (direction : Option ℚ) (percentages : Option (List ℚ))
  | radial (colors : List String) (percentages : Option (List ℚ))
      (cx : Option ℚ) (cy : Option ℚ) (r : Option ℚ)
deriving DecidableEq

/-- Style.gradient: the Required version of the gradient options. -/
inductive Gradient where
  | linear (colors : List String) (direction : ℚ) (percentages : List ℚ)
  | radial (colors : List String) (percentages : List ℚ) (cx : ℚ) (cy : ℚ) (r : ℚ)
deriving DecidableEq

/-- The colors array of a gradient. -/
def Gradient.colorList : Gradient → List String
  | .linear colors _ _ => colors
  | .radial colors _ _ _ _ => colors

/-- The percentages array of a gradient. -/
def Gradient.percentageList : Gradient → List ℚ
  | .linear _ _ percentages => percentages
  | .radial _ percentages _ _ _ => percentages

/-- The evenly spaced default offsets of src/Style.ts lines 116, 122 and 157:
colors.map of (index / (array.length - 1)) * 100. -/
def evenOffsets (colors : List String) : List ℚ :=
  colors.mapIdx (fun index _ => ((index : ℚ) / ((colors.length : ℚ) - 1)) * 100)

/-- Style.parseColor (src/Style.ts lines 104-128): a bare color becomes a linear
gradient holding that single color, direction 0 and percentages [0, 100];
incomplete gradients are completed with defaults through presence checks
(x != null ? x : d). -/
def parseColor : ColorInput → Gradient
  | .color c => .linear [c] 0 [0, 100]
  | .linear colors direction percentages =>
      .linear colors (direction.getD 0) (percentages.getD (evenOffsets colors))
  | .radial colors percentages cx cy r =>
      .radial colors (percentages.getD (evenOffsets colors))
        (cx.getD 50) (cy.getD 50) (r.getD 50)

/-- A Style.gradient is itself a valid gradientOptions value in TS; this is that
inclusion, with every field present. -/
def Gradient.toInput : Gradient → ColorInput
  | .linear colors direction percentages => .linear colors (some direction) (some percentages)
  | .radial colors percentages cx cy r =>
      .radial colors (some percentages) (some cx) (some cy) (some r)

/-- The offset emitted for the stop at a given index by Style.generateGradient
(src/Style.ts line 159): percentages[index] || (index / (gradient.colors.length - 1)) * 100.
An out-of-range index (undefined) and a 0 entry are both falsy and take the fallback. -/
def stopOffset (g : Gradient) (index : ℕ) : ℚ :=
  match g.percentageList.get? index with
  | some p =>
      if p = 0 then ((index : ℚ) / ((g.colorList.length : ℚ) - 1)) * 100 else p
  | none => ((index : ℚ) / ((g.colorList.length : ℚ) - 1)) * 100

/-- The list of (offset, color) stops emitted by Style.generateGradient
(src/Style.ts lines 157-161): one stop element per color. On line 157
gradient.percentages || fallback always keeps gradient.percentages, because
an array is truthy in JS. -/
def gradientStops (g : Gradient) : List (ℚ × String) :=
  g.colorList.mapIdx (fun index color => (stopOffset g index, color))

/-- The mutable state of a Style instance (src/Style.ts lines 1-16): the fields
written by the constructor and the private backing fields of the setters;
the underscored TS backing names are written with the stored prefix. -/
structure StyleState where
  matrixSideModules : ℚ
  moduleSize : ℚ
  matrixSize : ℚ
  storedModuleRadius : ℚ
  storedModuleMargin : ℚ
  storedPadding : ℚ
  storedMargin : ℚ
  storedBackground : Gradient
  storedActiveColor : Gradient
  storedInactiveColor : Gradient
deriving DecidableEq

/-- The Style constructor: moduleSize = 100, matrixSize = matrixSideModules
times moduleSize, field starting values as in src/Style.ts lines 4-16. -/
def mkStyle (matrixSideModules : ℚ) : StyleState :=
  { matrixSideModules := matrixSideModules
    moduleSize := 100
    matrixSize := matrixSideModules * 100
    storedModuleRadius := 0
    storedModuleMargin := 0
    storedPadding := 0
    storedMargin := 0
    storedBackground := parseColor (.color "#00B4FF")
    storedActiveColor := parseColor (.color "#000000")
    storedInactiveColor := parseColor (.color "#FFFFFF") }

/-- The margin setter (src/Style.ts lines 23-26): a bare number is scaled by
moduleSize, then resolved against matrixSize with no maximum. -/
def setMargin (st : StyleState) (margin : SizeValue) : StyleState :=
  let scaled : SizeValue :=
    match margin with
    | .num v => .num (v * st.moduleSize)
    | .str s => .str s
  { st with storedMargin := parseSizeValue scaled st.matrixSize none }

/-- The padding setter (src/Style.ts lines 30-33). -/
def setPadding (st : StyleState) (padding : SizeValue) : StyleState :=
  let scaled : SizeValue :=
    match padding with
    | .num v => .num (v * st.moduleSize)
    | .str s => .str s
  { st with storedPadding := parseSizeValue scaled st.matrixSize none }

/-- The moduleRadius setter (src/Style.ts lines 40-44): resolved against
moduleSize with maximum moduleSize * 0.5. -/
def setModuleRadius (st : StyleState) (moduleRadius : SizeValue) : StyleState :=
  { st with storedModuleRadius :=
      parseSizeValue moduleRadius st.moduleSize (some (st.moduleSize * (1 / 2))) }

/-- The moduleMargin setter (src/Style.ts lines 48-52): resolved against
moduleSize with maximum moduleSize * 0.3. -/
def setModuleMargin (st : StyleState) (moduleMargin : SizeValue) : StyleState :=
  { st with storedModuleMargin :=
      parseSizeValue moduleMargin st.moduleSize (some (st.moduleSize * (3 / 10))) }

/-- The background setter (src/Style.ts lines 56-58). -/
def setBackground (st : StyleState) (color : ColorInput) : StyleState :=
  { st with storedBackground := parseColor color }

/-- The activeColor setter (src/Style.ts lines 62-64). -/
def setActiveColor (st : StyleState) (color : ColorInput) : StyleState :=
  { st with storedActiveColor := parseColor color }

/-- The inactiveColor setter (src/Style.ts lines 68-70). -/
def setInactiveColor (st : StyleState) (color : ColorInput) : StyleState :=
  { st with storedInactiveColor := parseColor color }

/-- Style.Styles: the object accepted by setStyles; absent keys are none.
The four numeric keys are plain numbers in TS. -/
structure PartialStyles where
  moduleRadius : Option ℚ
  moduleMargin : Option ℚ
  padding : Option ℚ
  margin : Option ℚ
  background : Option ColorInput
  activeColor : Option ColorInput
  inactiveColor : Option ColorInput

/-- Style.setStyles (src/Style.ts lines 71-79): each key is applied through its
setter only when it is non-null, in source order. -/
def setStyles (st : StyleState) (styles : PartialStyles) : StyleState :=
  let st := match styles.moduleRadius with
    | some v => setModuleRadius st (.num v)
    | none => st
  let st := match styles.moduleMargin with
    | some v => setModuleMargin st (.num v)
    | none => st
  let st := match styles.padding with
    | some v => setPadding st (.num v)
    | none => st
  let st := match styles.margin with
    | some v => setMargin st (.num v)
    | none => st
  let st := match styles.background with
    | some c => setBackground st c
    | none => st
  let st := match styles.activeColor with
    | some c => setActiveColor st c
    | none => st
  match styles.inactiveColor with
  | some c => setInactiveColor st c
  | none => st

/-- The failure classification of the icon acquisition path: either the fetch
rejection propagates, or the FileReader decode fails, in which case
Drawer.loadImage rejects with the message Error loading image
(src/Drawer.ts line 293). -/
inductive IconLoadError where
  | fetchFailed (message : String)
  | decodeFailed (message : String)
deriving DecidableEq

/-- The asynchronous outcomes the environment hands to Drawer.loadImage:
the fetch plus blob step, and the FileReader readAsDataURL step. -/
structure LoadEnv where
  fetchOutcome : Except String (List ℕ)
  readOutcome : Except Unit String

/-- Drawer.loadImage (src/Drawer.ts lines 286-298): fetch the source, read the
blob as a data URL; a reader error rejects with Error loading image. -/
def loadImage (env : LoadEnv) : Except IconLoadError String :=
  match env.fetchOutcome with
  | .error message => .error (.fetchFailed message)
  | .ok _blob =>
      match env.readOutcome with
      | .ok dataUrl => .ok dataUrl
      | .error _ => .error (.decodeFailed "Error loading image")

/-- The part of the Drawer state holding the icon overlay (src/Drawer.ts line 7). -/
structure DrawerState where
  image : Option String
deriving DecidableEq

/-- Drawer.addImage (src/Drawer.ts lines 276-280): await loadImage, then store
the data URL in this.image and draw it. A rejection of loadImage propagates
before the assignment to this.image runs; drawImage never writes the image
field. The pair returned is the state after the call and the settled outcome
of the promise. -/
def addImage (st : DrawerState) (env : LoadEnv) : DrawerState × Except IconLoadError Unit :=
  match loadImage env with
  | .error e => (st, .error e)
  | .ok dataUrl => ({ st with image := some dataUrl }, .ok ())

/-- The icon side length in modules computed by Drawer.drawImage
(src/Drawer.ts lines 252-255): iconArea = Math.floor(qrArea * 0.15),
iconSize = Math.floor(Math.sqrt(iconArea)), decremented when even.
qrArea is the CapacityMetric (qr.QRMatrix.maxBitsData), a natural number,
so iconArea is nonnegative and the floored square root is Nat.sqrt. -/
def iconSideModules (capacity : ℕ) : ℤ :=
  let iconArea : ℤ := ⌊(capacity : ℚ) * (15 / 100)⌋
  let iconSize : ℕ := Nat.sqrt iconArea.toNat
  if iconSize % 2 = 0 then (iconSize : ℤ) - 1 else (iconSize : ℤ)

/-- Modelled from the spec, section 8: the icon side length as worded there,
the value floor(sqrt(floor(c*0.15))) adjusted to the nearest odd value at most
that length. -/
def specIconSide (capacity : ℕ) : ℤ :=
  let value : ℕ := Nat.sqrt (⌊(capacity : ℚ) * (15 / 100)⌋).toNat
  if Odd value then (value : ℤ) else (value : ℤ) - 1

/-- Style.calculateBorderPosition (src/Style.ts lines 170-178): convert the
angle from degrees to radians, scale the unit direction vector by
k = (size / 2) / max(|cos|, |sin|). -/
noncomputable def calculateBorderPosition (size angle : ℝ) : ℝ × ℝ :=
  let radians := angle * Real.pi / 180
  let xPrime := Real.cos radians
  let yPrime := Real.sin radians
  let k := (size / 2) / max |xPrime| |yPrime|
  (k * xPrime, k * yPrime)

/-- The two endpoints of the linear branch of Style.generateGradient
(src/Style.ts lines 137-148): center = size / 2, gradientSize =
size - margin * 2, (x1, y1) from the direction rotated by 180 degrees and
(x2, y2) from the direction, each translated by the center. -/
noncomputable def generateGradientEndpoints (size margin direction : ℝ) :
    (ℝ × ℝ) × (ℝ × ℝ) :=
  let center := size / 2
  let gradientSize := size - margin * 2
  let p1 := calculateBorderPosition gradientSize (direction + 180)
  let p2 := calculateBorderPosition gradientSize direction
  ((p1.1 + center, p1.2 + center), (p2.1 + center, p2.2 + center))

/-- For every angle, cos and sin cannot both vanish, so the scaling
denominator of calculateBorderPosition is positive. -/
theorem trig_max_pos (r : ℝ) : 0 < max |Real.cos r| |Real.sin r| := by
  rcases lt_or_le 0 (max |Real.cos r| |Real.sin r|) with h | h
  · exact h
  · exfalso
    have hc : |Real.cos r| ≤ 0 := le_trans (le_max_left _ _) h
    have hsi : |Real.sin r| ≤ 0 := le_trans (le_max_right _ _) h
    have hc0 : Real.cos r = 0 := abs_eq_zero.mp (le_antisymm hc (abs_nonneg _))
    have hs0 : Real.sin r = 0 := abs_eq_zero.mp (le_antisymm hsi (abs_nonneg _))
    have := Real.sin_sq_add_cos_sq r
    rw [hs0, hc0] at this
    norm_num at this

/-- The point calculateBorderPosition returns lies exactly on the boundary of
the square of side s centered at the origin. -/
theorem calcBorder_boundary (s θ : ℝ) (hs : 0 < s) :
    max |(calculateBorderPosition s θ).1| |(calculateBorderPosition s θ).2| = s / 2 := by
  unfold calculateBorderPosition
  set r := θ * Real.pi / 180 with hr
  set m := max |Real.cos r| |Real.sin r| with hm
  have hmpos : 0 < m := trig_max_pos r
  have hkpos : 0 < (s / 2) / m := div_pos (by linarith) hmpos
  simp only []
  rw [abs_mul, abs_mul, abs_of_pos hkpos]
  rw [← mul_max_of_nonneg _ _ (le_of_lt hkpos)]
  rw [← hm, div_mul_cancel₀ _ (ne_of_gt hmpos)]

/-- C1 counterexample: parseSizeValue is not confined to [0, maximum]. A
negative number passes through below 0 even with a maximum supplied, and a
maximum of 0 does not clamp a larger value down into [0, 0]. -/
theorem parseSizeValue_range_counterexample :
    parseSizeValue (.num (-5)) 100 (some 10) < 0 ∧
    0 < parseSizeValue (.num 50) 100 (some 0) := by
  constructor
  · simp +decide [parseSizeValue, resolveSize]
  · simp +decide [parseSizeValue, resolveSize]

/-- C1 (corrected): when a nonzero maximum m is supplied the result is at most
m unless the input fails to resolve, in which case it is 0 regardless of m;
unparseable string inputs always resolve to 0. No lower clamp to 0 exists. -/
theorem parseSizeValue_clamp_amended :
    (∀ (v : SizeValue) (r m : ℚ), m ≠ 0 →
      parseSizeValue v r (some m) ≤ m ∨ parseSizeValue v r (some m) = 0) ∧
    (∀ (s : String) (r : ℚ) (maximum : Option ℚ), resolveSizeString s r = none →
      parseSizeValue (.str s) r maximum = 0) := by
  constructor
  · intro v r m hm
    cases hres : resolveSize v r with
    | none =>
        right
        simp [parseSizeValue, hres]
    | some val =>
        left
        simp only [parseSizeValue, hres]
        by_cases hlt : m < val
        · rw [if_pos ⟨hm, hlt⟩]
        · rw [if_neg (by tauto)]
          exact le_of_not_lt hlt
  · intro s r maximum h
    simp [parseSizeValue, resolveSize, h]

/-- C1 witness: the amended clamp at concrete inputs, a clamped number and an
unparseable string. -/
theorem parseSizeValue_clamp_amended_witness :
    (parseSizeValue (.num 5) 100 (some 3) ≤ 3 ∨ parseSizeValue (.num 5) 100 (some 3) = 0) ∧
    parseSizeValue (.str "abc") 100 none = 0 :=
  ⟨parseSizeValue_clamp_amended.1 (.num 5) 100 3 (by norm_num),
   parseSizeValue_clamp_amended.2 "abc" 100 none (by decide)⟩

/-- C2 counterexample: a bare color does not produce two stops carrying the
color twice; the colors array holds the color once and the emitted stop list
has exactly one element. -/
theorem parseColor_two_stop_counterexample :
    (gradientStops (parseColor (.color "#00B4FF"))).length = 1 ∧
    (parseColor (.color "#00B4FF")).colorList ≠ ["#00B4FF", "#00B4FF"] := by
  constructor
  · simp [gradientStops, parseColor, Gradient.colorList]
  · decide

/-- C2 (corrected): a bare color normalizes to a linear gradient with direction
0, a colors list holding the single color once, and percentages [0, 100]; the
stop emission therefore produces exactly one stop, not two. -/
theorem parseColor_single_color_amended (c : String) :
    parseColor (.color c) = .linear [c] 0 [0, 100] ∧
    (parseColor (.color c)).percentageList = [0, 100] ∧
    (gradientStops (parseColor (.color c))).length = 1 := by
  refine ⟨rfl, rfl, ?_⟩
  simp [gradientStops, parseColor, Gradient.colorList]

/-- C3: a percentage string resolves to (n / 100) * reference, a pixel string
resolves to the literal n with no rescaling against the reference, a bare
number is returned as is; concretely 50% of 200 is 100, 30 against 200 is 30,
and 10px against 999 is 10. -/
theorem parseSizeValue_unit_resolution :
    (∀ (s : String) (r : ℚ) (n : ℤ), jsEndsWith s "%" = true →
      jsParseInt (jsSlice s 1) = some n →
      parseSizeValue (.str s) r none = ((n : ℚ) / 100) * r) ∧
    (∀ (s : String) (r : ℚ) (n : ℤ), jsEndsWith s "%" = false →
      jsEndsWith s "px" = true → jsParseInt (jsSlice s 2) = some n →
      parseSizeValue (.str s) r none = (n : ℚ)) ∧
    (∀ (q r : ℚ), parseSizeValue (.num q) r none = q) ∧
    parseSizeValue (.str "50%") 200 none = 100 ∧
    parseSizeValue (.num 30) 200 none = 30 ∧
    parseSizeValue (.str "10px") 999 none = 10 := by
  refine ⟨?_, ?_, ?_, ?_, ?_, ?_⟩
  · intro s r n hpct hparse
    simp [parseSizeValue, resolveSize, resolveSizeString, hpct, hparse]
  · intro s r n hpct hpx hparse
    simp [parseSizeValue, resolveSize, resolveSizeString, hpct, hpx, hparse]
  · intro q r
    rfl
  · have h1 : jsParseInt (jsSlice "50%" 1) = some 50 := by decide
    simp +decide [parseSizeValue, resolveSize, resolveSizeString, h1]
    norm_num
  · rfl
  · have h1 : jsParseInt (jsSlice "10px" 2) = some 10 := by decide
    simp +decide [parseSizeValue, resolveSize, resolveSizeString, h1]

/-- C3 witness: the percentage and pixel clauses applied at 50% against 200 and
10px against 999. -/
theorem parseSizeValue_unit_resolution_witness :
    parseSizeValue (.str "50%") 200 none = ((50 : ℚ) / 100) * 200 ∧
    parseSizeValue (.str "10px") 999 none = (10 : ℚ) :=
  ⟨parseSizeValue_unit_resolution.1 "50%" 200 50 (by decide) (by decide),
   parseSizeValue_unit_resolution.2.1 "10px" 999 10 (by decide) (by decide) (by decide)⟩

/-- C4: when the supplied stop offsets hold 0 at some index of a linear
gradient with at least two colors, the emitted offset at that index is the
re-derived evenly spaced value index / (colorCount - 1) * 100, not the
supplied 0, because line 159 tests truthiness rather than presence. -/
theorem stopOffset_falsy_zero (colors : List String) (direction : Option ℚ)
    (ps : List ℚ) (index : ℕ) (h0 : ps.get? index = some 0)
    (hlen : 1 < colors.length) :
    stopOffset (parseColor (.linear colors direction (some ps))) index =
      ((index : ℚ) / ((colors.length : ℚ) - 1)) * 100 := by
  have hcount := hlen
  rw [List.get?_eq_getElem?] at h0
  simp [stopOffset, parseColor, Gradient.percentageList, Gradient.colorList, h0]

/-- C4 witness: offsets [100, 0] over two colors; at index 1 the supplied 0 is
replaced by the evenly spaced value. -/
theorem stopOffset_falsy_zero_witness :
    ([(100 : ℚ), 0].get? 1 = some 0) ∧
    stopOffset (parseColor (.linear ["#000000", "#FFFFFF"] none (some [100, 0]))) 1 =
      ((1 : ℚ) / (((["#000000", "#FFFFFF"] : List String).length : ℚ) - 1)) * 100 :=
  ⟨by decide,
   stopOffset_falsy_zero ["#000000", "#FFFFFF"] none [100, 0] 1 (by decide) (by decide)⟩

/-- C5: when loadImage fails (unreachable source or failed decode), addImage
settles with that rejection and the stored icon overlay, the image field of
the Drawer, is exactly the one from before the call. -/
theorem addImage_failure_frame (st : DrawerState) (env : LoadEnv)
    (e : IconLoadError) (h : loadImage env = .error e) :
    addImage st env = (st, .error e) ∧ (addImage st env).1.image = st.image := by
  constructor
  · simp [addImage, h]
  · simp [addImage, h]

/-- C5 witness: a failing fetch leaves a previously stored icon in place and
surfaces the fetch failure. -/
theorem addImage_failure_frame_witness :
    addImage ⟨some "data:previous"⟩ ⟨.error "unreachable", .ok "data:new"⟩ =
      (⟨some "data:previous"⟩, .error (.fetchFailed "unreachable")) :=
  (addImage_failure_frame ⟨some "data:previous"⟩ ⟨.error "unreachable", .ok "data:new"⟩
    (.fetchFailed "unreachable") rfl).1

/-- C6: the icon side length in modules equals the floored square root of the
floored 15 percent of the capacity, decremented by one when even, which is the
nearest odd value at most that length, and the result is always odd. -/
theorem iconSide_odd (c : ℕ) : iconSideModules c = specIconSide c ∧ Odd (iconSideModules c) := by
  have key : ∀ s : ℕ,
      ((if s % 2 = 0 then (s : ℤ) - 1 else (s : ℤ)) =
        (if Odd s then (s : ℤ) else (s : ℤ) - 1)) ∧
      Odd (if s % 2 = 0 then (s : ℤ) - 1 else (s : ℤ)) := by
    intro s
    by_cases h2 : s % 2 = 0
    · have hno : ¬ Odd s := by simp [Nat.odd_iff, h2]
      rw [if_pos h2, if_neg hno]
      exact ⟨rfl, Int.odd_iff.mpr (by omega)⟩
    · have ho : Odd s := Nat.odd_iff.mpr (by omega)
      rw [if_neg h2, if_pos ho]
      exact ⟨rfl, Int.odd_iff.mpr (by omega)⟩
  exact key (Nat.sqrt (⌊(c : ℚ) * (15 / 100)⌋).toNat)

/-- C7: the two endpoints of the linear gradient are calculateBorderPosition at
the direction rotated by 180 degrees and at the direction, each translated by
the center, and each lies exactly on the boundary of the square of side
gradientSize = size - margin * 2 centered at the center, that is, the largest
of the coordinate distances from the center is gradientSize / 2. -/
theorem generateGradientEndpoints_on_boundary (size margin direction : ℝ)
    (h : 0 < size - margin * 2) :
    (generateGradientEndpoints size margin direction).1 =
      ((calculateBorderPosition (size - margin * 2) (direction + 180)).1 + size / 2,
       (calculateBorderPosition (size - margin * 2) (direction + 180)).2 + size / 2) ∧
    (generateGradientEndpoints size margin direction).2 =
      ((calculateBorderPosition (size - margin * 2) direction).1 + size / 2,
       (calculateBorderPosition (size - margin * 2) direction).2 + size / 2) ∧
    max |(generateGradientEndpoints size margin direction).1.1 - size / 2|
        |(generateGradientEndpoints size margin direction).1.2 - size / 2| =
      (size - margin * 2) / 2 ∧
    max |(generateGradientEndpoints size margin direction).2.1 - size / 2|
        |(generateGradientEndpoints size margin direction).2.2 - size / 2| =
      (size - margin * 2) / 2 := by
  refine ⟨rfl, rfl, ?_, ?_⟩
  · have := calcBorder_boundary (size - margin * 2) (direction + 180) h
    simpa [generateGradientEndpoints] using this
  · have := calcBorder_boundary (size - margin * 2) direction h
    simpa [generateGradientEndpoints] using this

/-- C7 witness: size 2, margin 0, direction 0. -/
theorem generateGradientEndpoints_on_boundary_witness :
    (0 : ℝ) < 2 - 0 * 2 ∧
    ((generateGradientEndpoints 2 0 0).1 =
      ((calculateBorderPosition (2 - 0 * 2) (0 + 180)).1 + 2 / 2,
       (calculateBorderPosition (2 - 0 * 2) (0 + 180)).2 + 2 / 2) ∧
    (generateGradientEndpoints 2 0 0).2 =
      ((calculateBorderPosition (2 - 0 * 2) 0).1 + 2 / 2,
       (calculateBorderPosition (2 - 0 * 2) 0).2 + 2 / 2) ∧
    max |(generateGradientEndpoints 2 0 0).1.1 - 2 / 2|
        |(generateGradientEndpoints 2 0 0).1.2 - 2 / 2| = (2 - 0 * 2) / 2 ∧
    max |(generateGradientEndpoints 2 0 0).2.1 - 2 / 2|
        |(generateGradientEndpoints 2 0 0).2.2 - 2 / 2| = (2 - 0 * 2) / 2) :=
  ⟨by norm_num, generateGradientEndpoints_on_boundary 2 0 0 (by norm_num)⟩

/-- C8: gradient normalization is idempotent; feeding the fully populated
gradient produced by parseColor back into parseColor reproduces it, because
every default is filled through a presence check. -/
theorem parseColor_idempotent (x : ColorInput) :
    parseColor (Gradient.toInput (parseColor x)) = parseColor x := by
  cases x <;> rfl

/-- C9: setStyles applies only the keys present in the styles object; every
field whose key is none keeps its previous value, and every field whose key is
some value gets exactly what its own setter computes, a merge, not a replace. -/
theorem setStyles_merge (st : StyleState) (p : PartialStyles) :
    (p.moduleRadius = none → (setStyles st p).storedModuleRadius = st.storedModuleRadius) ∧
    (∀ v, p.moduleRadius = some v →
      (setStyles st p).storedModuleRadius = (setModuleRadius st (.num v)).storedModuleRadius) ∧
    (p.moduleMargin = none → (setStyles st p).storedModuleMargin = st.storedModuleMargin) ∧
    (∀ v, p.moduleMargin = some v →
      (setStyles st p).storedModuleMargin = (setModuleMargin st (.num v)).storedModuleMargin) ∧
    (p.padding = none → (setStyles st p).storedPadding = st.storedPadding) ∧
    (∀ v, p.padding = some v →
      (setStyles st p).storedPadding = (setPadding st (.num v)).storedPadding) ∧
    (p.margin = none → (setStyles st p).storedMargin = st.storedMargin) ∧
    (∀ v, p.margin = some v →
      (setStyles st p).storedMargin = (setMargin st (.num v)).storedMargin) ∧
    (p.background = none → (setStyles st p).storedBackground = st.storedBackground) ∧
    (∀ c, p.background = some c → (setStyles st p).storedBackground = parseColor c) ∧
    (p.activeColor = none → (setStyles st p).storedActiveColor = st.storedActiveColor) ∧
    (∀ c, p.activeColor = some c → (setStyles st p).storedActiveColor = parseColor c) ∧
    (p.inactiveColor = none → (setStyles st p).storedInactiveColor = st.storedInactiveColor) ∧
    (∀ c, p.inactiveColor = some c →
      (setStyles st p).storedInactiveColor = parseColor c) := by
  rcases p with ⟨mr, mm, pd, mg, bg, ac, ic⟩
  have full : setStyles st ⟨mr, mm, pd, mg, bg, ac, ic⟩ =
      { st with
        storedModuleRadius :=
          match mr with
          | some v => parseSizeValue (.num v) st.moduleSize (some (st.moduleSize * (1 / 2)))
          | none => st.storedModuleRadius
        storedModuleMargin :=
          match mm with
          | some v => parseSizeValue (.num v) st.moduleSize (some (st.moduleSize * (3 / 10)))
          | none => st.storedModuleMargin
        storedPadding :=
          match pd with
          | some v => parseSizeValue (.num (v * st.moduleSize)) st.matrixSize none
          | none => st.storedPadding
        storedMargin :=
          match mg with
          | some v => parseSizeValue (.num (v * st.moduleSize)) st.matrixSize none
          | none => st.storedMargin
        storedBackground :=
          match bg with
          | some c => parseColor c
          | none => st.storedBackground
        storedActiveColor :=
          match ac with
          | some c => parseColor c
          | none => st.storedActiveColor
        storedInactiveColor :=
          match ic with
          | some c => parseColor c
          | none => st.storedInactiveColor } := by
    cases mr <;> cases mm <;> cases pd <;> cases mg <;> cases bg <;> cases ac <;> cases ic <;> rfl
  rw [full]
  exact ⟨fun h => by rw [show mr = none from h],
    fun v h => by rw [show mr = some v from h]; rfl,
    fun h => by rw [show mm = none from h],
    fun v h => by rw [show mm = some v from h]; rfl,
    fun h => by rw [show pd = none from h],
    fun v h => by rw [show pd = some v from h]; rfl,
    fun h => by rw [show mg = none from h],
    fun v h => by rw [show mg = some v from h]; rfl,
    fun h => by rw [show bg = none from h],
    fun c h => by rw [show bg = some c from h],
    fun h => by rw [show ac = none from h],
    fun c h => by rw [show ac = some c from h],
    fun h => by rw [show ic = none from h],
    fun c h => by rw [show ic = some c from h]⟩

/-- C9 witness: with every key absent, all seven fields keep their previous
values. -/
theorem setStyles_merge_witness :
    (setStyles (mkStyle 21) ⟨none, none, none, none, none, none, none⟩).storedModuleRadius =
      (mkStyle 21).storedModuleRadius ∧
    (setStyles (mkStyle 21) ⟨none, none, none, none, none, none, none⟩).storedModuleMargin =
      (mkStyle 21).storedModuleMargin ∧
    (setStyles (mkStyle 21) ⟨none, none, none, none, none, none, none⟩).storedPadding =
      (mkStyle 21).storedPadding ∧
    (setStyles (mkStyle 21) ⟨none, none, none, none, none, none, none⟩).storedMargin =
      (mkStyle 21).storedMargin ∧
    (setStyles (mkStyle 21) ⟨none, none, none, none, none, none, none⟩).storedBackground =
      (mkStyle 21).storedBackground ∧
    (setStyles (mkStyle 21) ⟨none, none, none, none, none, none, none⟩).storedActiveColor =
      (mkStyle 21).storedActiveColor ∧
    (setStyles (mkStyle 21) ⟨none, none, none, none, none, none, none⟩).storedInactiveColor =
      (mkStyle 21).storedInactiveColor := by
  obtain ⟨h1, -, h2, -, h3, -, h4, -, h5, -, h6, -, h7, -⟩ :=
    setStyles_merge (mkStyle 21) ⟨none, none, none, none, none, none, none⟩
  exact ⟨h1 rfl, h2 rfl, h3 rfl, h4 rfl, h5 rfl, h6 rfl, h7 rfl⟩

/-- C10: with a maximum of 0 the clamp never fires, because the JS condition
tests the truthiness of maximum; the result equals the call without a maximum,
and in particular 50% of 100 with maximum 0 resolves to 50, not 0. -/
theorem parseSizeValue_zero_maximum :
    (∀ (v : SizeValue) (r : ℚ), parseSizeValue v r (some 0) = parseSizeValue v r none) ∧
    parseSizeValue (.str "50%") 100 (some 0) = 50 := by
  constructor
  · intro v r
    cases hres : resolveSize v r <;> simp [parseSizeValue, hres]
  · have h1 : jsParseInt (jsSlice "50%" 1) = some 50 := by decide
    simp +decide [parseSizeValue, resolveSize, resolveSizeString, h1]
